import Mathlib

/-!
Shallow embedding of `crates/extrinsics/src/extrinsic_opts.rs` from the
cargo-contract repository: the `ExtrinsicOpts` options value, its builder
`ExtrinsicOptsBuilder`, and the chain-resolution function
`chain_and_endpoint`.

External collaborators of this file (the `url` crate, the production-chain
registry `prod_chains::ProductionChain`, the crate-level `url_to_string`
helper, and the artifact loader `ContractArtifacts`) are not part of the
given source; they are modelled from the specification, with the registry
and the artifact loader passed in explicitly as parameters, exactly as the
specification describes them ("two pure lookups ... backed by a static
table", "delegates to the external artifact-loading collaborator").
-/

namespace CargoContract

/-- Helper for the URL validity check: split a character list at the
first occurrence of the scheme separator `"://"`. -/
def splitScheme : List Char → Option (List Char × List Char)
  | [] => none
  | ':' :: '/' :: '/' :: rest => some ([], rest)
  | c :: rest =>
    match splitScheme rest with
    | some (pre, post) => some (c :: pre, post)
    | none => none

/-- Modelled from the spec: the `url` crate's URL validity check is
external to the given source. The spec only requires that `nodeUrl` is a
syntactically valid URL, validated at the point of conversion; validity is
modelled as having the shape `scheme "://" rest` with nonempty scheme and
rest. -/
def isValidUrl (s : String) : Bool :=
  match splitScheme s.data with
  | some (scheme, rest) => !scheme.isEmpty && !rest.isEmpty
  | none => false

/-- Modelled from the spec: a parsed URL from the external `url` crate. A
`Url` value carries the proof that its canonical string form is valid, so
every stored `nodeUrl` is syntactically valid by construction. -/
structure Url where
  str : String
  valid : isValidUrl str = true
  deriving DecidableEq

/-- Modelled from the spec: error taxonomy for URL construction, kind
`InvalidUrl` ("malformed URL string during construction"). -/
inductive UrlError where
  | invalidUrl
  deriving DecidableEq

/-- Modelled from the spec: `Url::parse` of the external `url` crate;
"construction fails (taxonomy: InvalidUrl) if the value cannot be parsed
as a URL at the point of conversion". -/
def Url.parse (s : String) : Except UrlError Url :=
  if h : isValidUrl s = true then Except.ok ⟨s, h⟩
  else Except.error UrlError.invalidUrl

/-- Modelled from the spec: `url_to_string` (crate root, not in the given
source) "renders the stored URL to its canonical string form". -/
def url_to_string (u : Url) : String :=
  u.str

/-- Modelled from the spec: `prod_chains::ProductionChain` (not in the
given source) is an entry of the static registry of known production
networks, exposing a display name (`to_string` in the source) and a
canonical endpoint (`end_point` in the source). -/
structure ProductionChain where
  name : String
  end_point : String
  deriving DecidableEq

/-- Modelled from the spec: the registry lookup
`ProductionChain::chain_by_endpoint`, "chainMatchingEndpoint(url) ->
Option ChainName", a pure lookup over the static table of known
production endpoints: the rendered URL must exactly equal a known
production endpoint string. The static table itself is external, so it is
passed as the `registry` parameter. -/
def chain_by_endpoint (registry : List ProductionChain) (endpoint : String) :
    Option ProductionChain :=
  registry.find? (fun c => c.end_point == endpoint)

/-- `Verbosity` from the external `contract_build` crate: a small
enumerated set of reporting levels, defaulting to `Default`. -/
inductive Verbosity where
  | quiet
  | default
  | verbose
  deriving DecidableEq

/-- File paths, opaque to this core. -/
abbrev Path := String

/-- The derived chain classification `Chain` from the source: either a
known production network (with its name) or a custom network. -/
inductive Chain where
  | Production (name : String)
  | Custom
  deriving DecidableEq

/-- The finished immutable configuration `ExtrinsicOpts`. The source is
generic over the chain-configuration type `C` (a phantom), the
environment's balance type `E::Balance` and the signer type; the balance
and signer types are kept as type parameters. -/
structure ExtrinsicOpts (Balance : Type) (Signer : Type) where
  file : Option Path
  manifest_path : Option Path
  url : Url
  signer : Signer
  storage_deposit_limit : Option Balance
  verbosity : Verbosity
  chain : Option ProductionChain

/-- The builder `ExtrinsicOptsBuilder`, wrapping an options value under
assembly, exactly as in the source. -/
structure ExtrinsicOptsBuilder (Balance : Type) (Signer : Type) where
  opts : ExtrinsicOpts Balance Signer

variable {Balance : Type} {Signer : Type}

/-- The default URL stored by `ExtrinsicOptsBuilder::new`:
`url::Url::parse("ws://localhost:9944").unwrap()`. -/
def defaultUrl : Url :=
  ⟨"ws://localhost:9944", by decide⟩

/-- `ExtrinsicOptsBuilder::new`: a clean builder with all optional fields
unset, the local development endpoint as URL, and default verbosity. -/
def ExtrinsicOptsBuilder.new (signer : Signer) :
    ExtrinsicOptsBuilder Balance Signer :=
  { opts :=
    { file := none
      manifest_path := none
      url := defaultUrl
      signer := signer
      storage_deposit_limit := none
      verbosity := Verbosity.default
      chain := none } }

/-- Setter `ExtrinsicOptsBuilder::file`. -/
def ExtrinsicOptsBuilder.file (b : ExtrinsicOptsBuilder Balance Signer)
    (file : Option Path) : ExtrinsicOptsBuilder Balance Signer :=
  { b with opts := { b.opts with file := file } }

/-- Setter `ExtrinsicOptsBuilder::manifest_path`. -/
def ExtrinsicOptsBuilder.manifest_path (b : ExtrinsicOptsBuilder Balance Signer)
    (manifest_path : Option Path) : ExtrinsicOptsBuilder Balance Signer :=
  { b with opts := { b.opts with manifest_path := manifest_path } }

/-- Setter `ExtrinsicOptsBuilder::url`: takes a value already converted to
a `Url` (the source bound is `T: Into<Url>`, an infallible conversion). -/
def ExtrinsicOptsBuilder.url (b : ExtrinsicOptsBuilder Balance Signer)
    (url : Url) : ExtrinsicOptsBuilder Balance Signer :=
  { b with opts := { b.opts with url := url } }

/-- Setter `ExtrinsicOptsBuilder::storage_deposit_limit`. -/
def ExtrinsicOptsBuilder.storage_deposit_limit
    (b : ExtrinsicOptsBuilder Balance Signer)
    (storage_deposit_limit : Option Balance) :
    ExtrinsicOptsBuilder Balance Signer :=
  { b with opts := { b.opts with storage_deposit_limit := storage_deposit_limit } }

/-- Setter `ExtrinsicOptsBuilder::verbosity`. -/
def ExtrinsicOptsBuilder.verbosity (b : ExtrinsicOptsBuilder Balance Signer)
    (verbosity : Verbosity) : ExtrinsicOptsBuilder Balance Signer :=
  { b with opts := { b.opts with verbosity := verbosity } }

/-- Setter `ExtrinsicOptsBuilder::chain`. -/
def ExtrinsicOptsBuilder.chain (b : ExtrinsicOptsBuilder Balance Signer)
    (chain : Option ProductionChain) : ExtrinsicOptsBuilder Balance Signer :=
  { b with opts := { b.opts with chain := chain } }

/-- `ExtrinsicOptsBuilder::done`: finalize into the immutable options. -/
def ExtrinsicOptsBuilder.done (b : ExtrinsicOptsBuilder Balance Signer) :
    ExtrinsicOpts Balance Signer :=
  b.opts

/-- Accessor `ExtrinsicOpts::url`: `url_to_string(&self.url)`. -/
def ExtrinsicOpts.urlString (o : ExtrinsicOpts Balance Signer) : String :=
  url_to_string o.url

/-- `ExtrinsicOpts::chain_and_endpoint`: if an explicit production chain
is set, return it with its canonical endpoint; otherwise render the URL
and look it up in the registry, substituting the canonical endpoint on a
match and falling back to `(Custom, url)` otherwise. The static registry
is external and passed explicitly. -/
def ExtrinsicOpts.chain_and_endpoint (registry : List ProductionChain)
    (o : ExtrinsicOpts Balance Signer) : Chain × String :=
  match o.chain with
  | some chain => (Chain.Production chain.name, chain.end_point)
  | none =>
    let url := o.urlString
    match chain_by_endpoint registry url with
    | some chain => (Chain.Production chain.name, chain.end_point)
    | none => (Chain.Custom, url)

/-- Modelled from the spec: artifact-loading error taxonomy, owned by the
external loader (`ArtifactNotFound`, `ArtifactParseError`,
`AmbiguousManifestAndFile`). -/
inductive LoadError where
  | artifactNotFound
  | artifactParseError
  | ambiguousManifestAndFile
  deriving DecidableEq

/-- Modelled from the spec: the loaded artifact bundle `ContractArtifacts`
(external collaborator), of which this core only queries whether it is
flagged as independently verifiable. -/
structure ContractArtifacts where
  is_verifiable : Bool
  deriving DecidableEq

/-- Modelled from the spec: the external artifact-loading collaborator
`ContractArtifacts::from_manifest_or_file`, consumed as
`loadArtifacts(manifestPath, artifactFile) -> Result`; passed in
explicitly as a function. -/
abbrev ArtifactLoader :=
  Option Path → Option Path → Except LoadError ContractArtifacts

/-- `ExtrinsicOpts::contract_artifacts`: delegates to the loader with
`manifest_path` and `file`. -/
def ExtrinsicOpts.contract_artifacts (loader : ArtifactLoader)
    (o : ExtrinsicOpts Balance Signer) : Except LoadError ContractArtifacts :=
  loader o.manifest_path o.file

/-- `ExtrinsicOpts::is_verifiable`:
`Ok(self.contract_artifacts()?.is_verifiable())`. -/
def ExtrinsicOpts.is_verifiable (loader : ArtifactLoader)
    (o : ExtrinsicOpts Balance Signer) : Except LoadError Bool :=
  match o.contract_artifacts loader with
  | Except.error e => Except.error e
  | Except.ok artifacts => Except.ok artifacts.is_verifiable

/-- The combined operation of converting a raw string to a URL and
applying the `url` setter: parsing happens at the point of conversion,
before anything is stored. -/
def ExtrinsicOptsBuilder.urlFromString (b : ExtrinsicOptsBuilder Balance Signer)
    (s : String) : Except UrlError (ExtrinsicOptsBuilder Balance Signer) :=
  match Url.parse s with
  | Except.error e => Except.error e
  | Except.ok u => Except.ok (b.url u)

/-- Concrete sample production chain for witnesses (the real static table
is external; any entry works). -/
def polkadotChain : ProductionChain :=
  ⟨"polkadot", "wss://rpc.polkadot.io:443"⟩

/-- Concrete sample registry for witnesses. -/
def sampleRegistry : List ProductionChain :=
  [polkadotChain, ⟨"astar", "wss://rpc.astar.network:443"⟩]

/-- Concrete sample URL for witnesses, matching no registry endpoint. -/
def sampleUrl : Url :=
  ⟨"wss://other.example:443", by decide⟩

/-- Concrete sample URL for witnesses, equal to polkadot's canonical
endpoint. -/
def polkadotUrl : Url :=
  ⟨"wss://rpc.polkadot.io:443", by decide⟩

/-- Concrete sample loader for witnesses: always succeeds with a
verifiable artifact. -/
def sampleLoaderOk : ArtifactLoader :=
  fun _ _ => Except.ok ⟨true⟩

/-- Auxiliary: a successful `Url::parse` stores exactly the input
string. -/
theorem Url.parse_ok_str {s : String} {u : Url} (h : Url.parse s = Except.ok u) :
    u.str = s := by
  unfold Url.parse at h
  split at h
  · cases h
    rfl
  · simp at h

/-- C1: if `namedChain` is set to a production chain `c`,
`chain_and_endpoint` returns `(Production(name of c), canonical endpoint
of c)`, independently of the stored `nodeUrl`. -/
theorem chain_and_endpoint_named (registry : List ProductionChain)
    (o : ExtrinsicOpts Balance Signer) (c : ProductionChain)
    (h : o.chain = some c) :
    o.chain_and_endpoint registry = (Chain.Production c.name, c.end_point) := by
  simp [ExtrinsicOpts.chain_and_endpoint, h]

/-- Witness for C1: an explicit polkadot chain wins over a conflicting
stored URL. -/
theorem chain_and_endpoint_named_witness :
    ExtrinsicOpts.chain_and_endpoint sampleRegistry
        ((((ExtrinsicOptsBuilder.new "alice" : ExtrinsicOptsBuilder Nat String).url
            sampleUrl).chain (some polkadotChain)).done)
      = (Chain.Production "polkadot", "wss://rpc.polkadot.io:443") :=
  chain_and_endpoint_named sampleRegistry _ polkadotChain rfl

/-- C2: if `namedChain` is unset and the rendered `nodeUrl` matches a
known production endpoint, `chain_and_endpoint` returns
`(Production(matchedName), canonical endpoint of the matched chain)`. -/
theorem chain_and_endpoint_url_match (registry : List ProductionChain)
    (o : ExtrinsicOpts Balance Signer) (c : ProductionChain)
    (h1 : o.chain = none)
    (h2 : chain_by_endpoint registry o.urlString = some c) :
    o.chain_and_endpoint registry = (Chain.Production c.name, c.end_point) := by
  simp [ExtrinsicOpts.chain_and_endpoint, h1, h2]

/-- Witness for C2: a URL equal to polkadot's canonical endpoint is
classified as polkadot. -/
theorem chain_and_endpoint_url_match_witness :
    ExtrinsicOpts.chain_and_endpoint sampleRegistry
        (((ExtrinsicOptsBuilder.new "alice" : ExtrinsicOptsBuilder Nat String).url
          polkadotUrl).done)
      = (Chain.Production "polkadot", "wss://rpc.polkadot.io:443") :=
  chain_and_endpoint_url_match sampleRegistry _ polkadotChain rfl rfl

/-- C3: if `namedChain` is unset and the rendered `nodeUrl` matches no
known production endpoint, `chain_and_endpoint` returns `(Custom, u)`
where `u` is exactly the rendered URL, unmodified. -/
theorem chain_and_endpoint_no_match (registry : List ProductionChain)
    (o : ExtrinsicOpts Balance Signer)
    (h1 : o.chain = none)
    (h2 : chain_by_endpoint registry o.urlString = none) :
    o.chain_and_endpoint registry = (Chain.Custom, o.urlString) := by
  simp [ExtrinsicOpts.chain_and_endpoint, h1, h2]

/-- Witness for C3: an unknown URL is classified as custom and returned
verbatim. -/
theorem chain_and_endpoint_no_match_witness :
    ExtrinsicOpts.chain_and_endpoint sampleRegistry
        (((ExtrinsicOptsBuilder.new "alice" : ExtrinsicOptsBuilder Nat String).url
          sampleUrl).done)
      = (Chain.Custom, "wss://other.example:443") :=
  chain_and_endpoint_no_match sampleRegistry _ rfl rfl

/-- C4: `chain_and_endpoint` is total: for every options value it returns
exactly one classification, either `Production(_)` or `Custom`. -/
theorem chain_and_endpoint_total (registry : List ProductionChain)
    (o : ExtrinsicOpts Balance Signer) :
    (∃ n s, o.chain_and_endpoint registry = (Chain.Production n, s)) ∨
      (∃ s, o.chain_and_endpoint registry = (Chain.Custom, s)) := by
  cases h : o.chain with
  | some c =>
    exact Or.inl ⟨c.name, c.end_point, by simp [ExtrinsicOpts.chain_and_endpoint, h]⟩
  | none =>
    cases h2 : chain_by_endpoint registry o.urlString with
    | some c =>
      exact Or.inl ⟨c.name, c.end_point, by simp [ExtrinsicOpts.chain_and_endpoint, h, h2]⟩
    | none =>
      exact Or.inr ⟨o.urlString, by simp [ExtrinsicOpts.chain_and_endpoint, h, h2]⟩

/-- C5: default-constructed options (`new(signer)` with no further
setters) resolve to `(Custom, "ws://localhost:9944")` whenever the
registry does not claim the local development endpoint. -/
theorem default_resolves_custom (signer : Signer) (registry : List ProductionChain)
    (h : chain_by_endpoint registry "ws://localhost:9944" = none) :
    ((ExtrinsicOptsBuilder.new signer : ExtrinsicOptsBuilder Balance Signer).done).chain_and_endpoint
        registry
      = (Chain.Custom, "ws://localhost:9944") := by
  simp [ExtrinsicOpts.chain_and_endpoint, ExtrinsicOptsBuilder.new,
    ExtrinsicOptsBuilder.done, ExtrinsicOpts.urlString, url_to_string, defaultUrl, h]

/-- Witness for C5: with a concrete registry of real production chains,
default options resolve to the local custom endpoint. -/
theorem default_resolves_custom_witness :
    ((ExtrinsicOptsBuilder.new "alice" : ExtrinsicOptsBuilder Nat String).done).chain_and_endpoint
        sampleRegistry
      = (Chain.Custom, "ws://localhost:9944") :=
  default_resolves_custom "alice" sampleRegistry rfl

/-- C6: every setter is last-write-wins: applying it twice equals
applying it once with the second value. -/
theorem setters_last_write_wins (b : ExtrinsicOptsBuilder Balance Signer)
    (f1 f2 m1 m2 : Option Path) (u1 u2 : Url) (d1 d2 : Option Balance)
    (v1 v2 : Verbosity) (c1 c2 : Option ProductionChain) :
    (b.file f1).file f2 = b.file f2 ∧
      (b.manifest_path m1).manifest_path m2 = b.manifest_path m2 ∧
      (b.url u1).url u2 = b.url u2 ∧
      (b.storage_deposit_limit d1).storage_deposit_limit d2
        = b.storage_deposit_limit d2 ∧
      (b.verbosity v1).verbosity v2 = b.verbosity v2 ∧
      (b.chain c1).chain c2 = b.chain c2 :=
  ⟨rfl, rfl, rfl, rfl, rfl, rfl⟩

/-- C7: converting a raw string and applying the URL setter either stores
a valid URL or fails with `InvalidUrl` at the point of conversion, never
deferred. -/
theorem url_setter_validates (b : ExtrinsicOptsBuilder Balance Signer)
    (s : String) :
    (Url.parse s = Except.error UrlError.invalidUrl →
        b.urlFromString s = Except.error UrlError.invalidUrl) ∧
      ((∃ u, b.urlFromString s = Except.ok (b.url u) ∧ isValidUrl u.str = true ∧
          u.str = s) ∨
        b.urlFromString s = Except.error UrlError.invalidUrl) := by
  constructor
  · intro h
    simp [ExtrinsicOptsBuilder.urlFromString, h]
  · cases hp : Url.parse s with
    | error e =>
      cases e
      exact Or.inr (by simp [ExtrinsicOptsBuilder.urlFromString, hp])
    | ok u =>
      exact Or.inl ⟨u, by simp [ExtrinsicOptsBuilder.urlFromString, hp], u.valid,
        Url.parse_ok_str hp⟩

/-- Witness for C7: an unparseable string fails immediately with
`InvalidUrl`. -/
theorem url_setter_validates_witness :
    (ExtrinsicOptsBuilder.new "alice" : ExtrinsicOptsBuilder Nat String).urlFromString
        "nourl"
      = Except.error UrlError.invalidUrl :=
  (url_setter_validates (ExtrinsicOptsBuilder.new "alice") "nourl").1 rfl

/-- C8: `is_verifiable` fails exactly when `contract_artifacts` fails,
with the same error; on success it returns the loaded artifact's
verifiable flag. -/
theorem is_verifiable_delegates (loader : ArtifactLoader)
    (o : ExtrinsicOpts Balance Signer) :
    (∀ e, o.is_verifiable loader = Except.error e ↔
        o.contract_artifacts loader = Except.error e) ∧
      ∀ a, o.contract_artifacts loader = Except.ok a →
        o.is_verifiable loader = Except.ok a.is_verifiable := by
  unfold ExtrinsicOpts.is_verifiable
  cases h : o.contract_artifacts loader with
  | error e =>
    refine ⟨fun e' => by simp, fun a ha => ?_⟩
    simp at ha
  | ok a =>
    refine ⟨fun e' => by simp, fun a' ha => ?_⟩
    obtain rfl := Except.ok.inj ha
    rfl

/-- Witness for C8: with a loader that succeeds with a verifiable
artifact, `is_verifiable` returns `true`. -/
theorem is_verifiable_delegates_witness :
    ExtrinsicOpts.is_verifiable sampleLoaderOk
        ((ExtrinsicOptsBuilder.new "alice" : ExtrinsicOptsBuilder Nat String).done)
      = Except.ok true :=
  (is_verifiable_delegates sampleLoaderOk
    ((ExtrinsicOptsBuilder.new "alice" : ExtrinsicOptsBuilder Nat String).done)).2
    ⟨true⟩ rfl

/-- C9: `chain_and_endpoint` is a pure function of the `chain` and `url`
fields only: options agreeing on those fields resolve identically,
whatever their signer, deposit limit, verbosity, file or manifest path. -/
theorem chain_and_endpoint_pure (registry : List ProductionChain)
    (o1 o2 : ExtrinsicOpts Balance Signer)
    (h1 : o1.chain = o2.chain) (h2 : o1.url = o2.url) :
    o1.chain_and_endpoint registry = o2.chain_and_endpoint registry := by
  unfold ExtrinsicOpts.chain_and_endpoint ExtrinsicOpts.urlString url_to_string
  rw [h1, h2]

/-- Witness for C9: two options values differing in file, manifest path,
signer, deposit limit and verbosity, but agreeing on chain and URL,
resolve identically. -/
theorem chain_and_endpoint_pure_witness :
    ExtrinsicOpts.chain_and_endpoint sampleRegistry
        ({ file := some "a.contract", manifest_path := none, url := sampleUrl,
           signer := "alice", storage_deposit_limit := some 5,
           verbosity := Verbosity.quiet, chain := none } : ExtrinsicOpts Nat String)
      = ExtrinsicOpts.chain_and_endpoint sampleRegistry
        ({ file := none, manifest_path := some "Cargo.toml", url := sampleUrl,
           signer := "bob", storage_deposit_limit := none,
           verbosity := Verbosity.verbose, chain := none } : ExtrinsicOpts Nat String) :=
  chain_and_endpoint_pure sampleRegistry _ _ rfl rfl

/-- C10: calling an optional-argument setter with `none` clears the
field: after `some v` then `none`, the finished options report the field
as unset. -/
theorem none_clears (b : ExtrinsicOptsBuilder Balance Signer)
    (f m : Path) (d : Balance) (c : ProductionChain) :
    ((b.file (some f)).file none).done.file = none ∧
      ((b.manifest_path (some m)).manifest_path none).done.manifest_path = none ∧
      ((b.storage_deposit_limit (some d)).storage_deposit_limit none).done.storage_deposit_limit
        = none ∧
      ((b.chain (some c)).chain none).done.chain = none :=
  ⟨rfl, rfl, rfl, rfl⟩

end CargoContract
